import Mathlib

/-!
Verification of the `useful_tools` repository: a shallow embedding in Lean 4 of
`scripts/file_lock.py`, `scripts/database_helper.py` and `scripts/utils.py`,
with theorems about lock acquisition/release, the connection-string builder,
the Slack notifier, the logger setup and the timedelta formatter.

Machine integers are modelled as `Nat`/`Int` (Python ints are unbounded, so no
wrap-around is needed).  Fallible Python code is embedded with `Except PyErr`.
External collaborators (the zc.lockfile OS lock primitive, the HTTP client,
the logging library) are modelled from their documented behaviour; each such
definition says so in its doc comment.
-/

/-- Python-level exception values that the embedded code can raise. -/
inductive PyErr where
  | lockError : PyErr
  | ioError : String → PyErr
  | nameError : String → PyErr
deriving DecidableEq, Repr

/-! ## database_helper.py -/

/-- Rendering of the `db` field of the connection template: the source passes
`database or ''`, Python's `or` returning the left operand when it is truthy
(a non-empty string) and `''` otherwise. -/
def pyOrEmpty (database : Option String) : String :=
  match database with
  | some s => if s = "" then "" else s
  | none => ""

/-- Embedding of `DatabaseHelper.build_connection_string`
(`scripts/database_helper.py`).  The source checks membership of
`server_type` in the list of the two supported types, selects the matching
format template from the `server_types` dict and applies `str.format`; since
every template is a literal, `str.format` is embedded as concatenation of the
literal pieces with the substituted arguments.  The trailing
`if charset: cxn_str += ...` tests Python truthiness of `charset`
(false for both `None` and the empty string). -/
def build_connection_string (server_type username password server : String)
    (port : Nat) (database : Option String) (charset : Option String) :
    Option String :=
  if ¬ (server_type = "mysql" ∨ server_type = "mssql") then
    none
  else
    let driver : String := if server_type = "mysql" then "pymysql" else "pymssql"
    let db : String := pyOrEmpty database
    let cxn_str : String :=
      server_type ++ "+" ++ driver ++ "://" ++ username ++ ":" ++ password ++
        "@" ++ server ++ ":" ++ toString port ++ "/" ++ db
    let cxn_str : String :=
      match charset with
      | some c => if c = "" then cxn_str else cxn_str ++ "?charset=" ++ c
      | none => cxn_str
    some cxn_str

/-- Spec-side rendering of the database component: the claim says the database
is rendered as the empty string when `None` and as itself otherwise. -/
def dbRender (database : Option String) : String :=
  match database with
  | some s => s
  | none => ""

/-- Spec-side rendering of the charset suffix: the claim says `?charset=...`
is appended exactly when a non-empty charset is given. -/
def charsetSuffix (charset : Option String) : String :=
  match charset with
  | some c => if c = "" then "" else "?charset=" ++ c
  | none => ""

/-! ## utils.py: format_timedelta -/

/-- A `datetime.timedelta` value after Python's normalisation:
`0 <= seconds < 86400` and `0 <= microseconds < 10^6` always hold on real
timedelta objects (only `days` may be negative), which is why `seconds` and
`microseconds` are carried as `Nat`. -/
structure Timedelta where
  days : Int
  seconds : Nat
  microseconds : Nat
deriving DecidableEq, Repr

/-- Python's `divmod` on integers: floored quotient and remainder. -/
def pyDivmod (a b : Int) : Int × Int :=
  (Int.fdiv a b, Int.fmod a b)

/-- Python's format spec `02d`: decimal rendering zero-padded on the left to
width two (a sign character counts toward the width, as in Python). -/
def pad2 (n : Int) : String :=
  if 0 ≤ n ∧ n < 10 then "0" ++ toString n else toString n

/-- Python's format spec `06d` on a non-negative value: decimal rendering
zero-padded on the left to width six. -/
def pad6 (n : Nat) : String :=
  let s := toString n
  String.mk (List.replicate (6 - s.length) '0') ++ s

/-- Embedding of `format_timedelta` (`scripts/utils.py`): two chained
`divmod`s by 60 of `time_delta.seconds + time_delta.days * (60*60*24)`,
rendered as unpadded hours, two-padded minutes and seconds, and (when
`with_micro_secs`) a dot followed by six-padded microseconds. -/
def format_timedelta (time_delta : Timedelta) (with_micro_secs : Bool) : String :=
  let p := pyDivmod ((time_delta.seconds : Int) + time_delta.days * (60 * 60 * 24)) 60
  let minutes := p.1
  let seconds := p.2
  let q := pyDivmod minutes 60
  let hours := q.1
  let minutes := q.2
  if with_micro_secs then
    toString hours ++ ":" ++ pad2 minutes ++ ":" ++ pad2 seconds ++ "." ++
      pad6 time_delta.microseconds
  else
    toString hours ++ ":" ++ pad2 minutes ++ ":" ++ pad2 seconds

/-! ## file_lock.py -/

/-- The filesystem as the lock primitive sees it: per-path file content, and
which paths are currently claimed by a live OS-level advisory lock. -/
structure FS where
  content : String → Option String
  locked : String → Bool

/-- A filesystem with no files and no held locks, used to instantiate
theorems at concrete states. -/
def FS.empty : FS :=
  { content := fun _ => none, locked := fun _ => false }

/-- The ambient process environment of an acquisition attempt: the pid and
hostname substituted into the lock payload, and an injected non-contention
I/O failure (`some msg` makes the underlying filesystem operation of the
lock primitive fail with that OS error, e.g. permission denied). -/
structure Env where
  pid : Nat
  hostname : String
  openFail : Option String

/-- Modelled from the spec: the substitution of the fixed textual template
`"{pid}@{hostname}"` with the acquiring process's identifier and hostname,
performed by the external lock primitive on the template that
`acquire_lock` passes to it. -/
def lockPayload (pid : Nat) (hostname : String) : String :=
  toString pid ++ "@" ++ hostname

/-- The in-process handle of the external `zc.lockfile.LockFile` object:
the path it claims and its open file handle (`none` once closed). -/
structure LockFile where
  path : String
  fp : Option Nat
deriving DecidableEq, Repr

/-- Modelled from the spec: construction of the external
`zc.lockfile.LockFile` primitive, the OS-level advisory lock.  An injected
I/O failure raises that OS error and touches nothing.  If the path is
already claimed by a live process the constructor raises `LockError` and
alters neither the claim table nor the existing file content.  Otherwise it
atomically claims the path, writes the substituted diagnostic payload as the
file content, and hands back a live handle. -/
def LockFile.init (env : Env) (st : FS) (path : String) :
    Except PyErr LockFile × FS :=
  match env.openFail with
  | some msg => (Except.error (PyErr.ioError msg), st)
  | none =>
    if st.locked path then
      (Except.error PyErr.lockError, st)
    else
      (Except.ok { path := path, fp := some 0 },
       { content := fun p => if p = path then some (lockPayload env.pid env.hostname) else st.content p,
         locked := fun p => if p = path then true else st.locked p })

/-- Modelled from the spec: `zc.lockfile.LockFile.close`, guarded on the open
handle — closing releases the OS claim on the path and drops the handle, and
a second close is a no-op.  The file content is left in place. -/
def LockFile.close (lf : LockFile) (st : FS) : LockFile × FS :=
  match lf.fp with
  | none => (lf, st)
  | some _ =>
      ({ lf with fp := none },
       { st with locked := fun p => if p = lf.path then false else st.locked p })

/-- The `FileLock` wrapper object of `scripts/file_lock.py`: its only
attribute is `lock`, set to `None` by `__init__`. -/
structure FileLock where
  lock : Option LockFile
deriving DecidableEq, Repr

/-- Embedding of `FileLock.__init__`: `self.lock = None`. -/
def FileLock.new : FileLock :=
  { lock := none }

/-- Result of an `acquire_lock` call: the returned value (the lock object on
success, `None` on contention, a propagating exception otherwise), the
mutated `self`, the filesystem afterwards, and the lines printed when
verbose. -/
structure AcquireResult where
  ret : Except PyErr (Option LockFile)
  self : FileLock
  st : FS
  out : List String

/-- Embedding of `FileLock.acquire_lock` (`scripts/file_lock.py`):
`self.lock = LockFile(lock_file, content_template='{pid}@{hostname}')` inside
a `try` whose only handler catches `LockError` and returns `None`; on
success the lock file is re-opened and read (for the verbose diagnostic) and
`self.lock` is returned.  A `LockError` leaves `self.lock` unassigned; any
other exception propagates. -/
def FileLock.acquire_lock (self : FileLock) (env : Env) (st : FS)
    (lock_file : String) (verbose : Bool) : AcquireResult :=
  match LockFile.init env st lock_file with
  | (Except.error PyErr.lockError, st1) =>
      { ret := Except.ok none, self := self, st := st1,
        out := if verbose then ["Lock has already been acquired. Exiting"] else [] }
  | (Except.error e, st1) =>
      { ret := Except.error e, self := self, st := st1, out := [] }
  | (Except.ok lf, st1) =>
      let self1 : FileLock := { self with lock := some lf }
      let out1 : List String := if verbose then ["Lock Acquired!"] else []
      match st1.content lock_file with
      | none =>
          { ret := Except.error (PyErr.ioError "No such file or directory"),
            self := self1, st := st1, out := out1 }
      | some c =>
          { ret := Except.ok (some lf), self := self1, st := st1,
            out := out1 ++ (if verbose then ["Lock process: " ++ c] else []) }

/-- Embedding of `FileLock.release_lock`: `if self.lock: self.lock.close()`.
Note the source does not reset `self.lock`; the guard against double close
lives inside `LockFile.close`.  The return type has no error channel: the
embedded operation cannot raise. -/
def FileLock.release_lock (self : FileLock) (st : FS) : FileLock × FS :=
  match self.lock with
  | none => (self, st)
  | some lf =>
      let r := lf.close st
      ({ self with lock := some r.1 }, r.2)

/-- Embedding of `FileLock.__del__`: `if self.lock: self.lock.close()`, run
when the object is finalized. -/
def FileLock.del (self : FileLock) (st : FS) : FS :=
  match self.lock with
  | none => st
  | some lf => (lf.close st).2

/-- Result of running a `with file_lock(...) as fl:` scope: the value bound
by `as` (`none` when the generator raised before its yield), the outcome
propagated to the caller, and the filesystem after the scope. -/
structure ScopeResult where
  yielded : Option (Option LockFile)
  ret : Except PyErr Unit
  st : FS

/-- Embedding of the generator-based context manager `file_lock`
(`scripts/file_lock.py`): create a fresh `FileLock`, call `acquire_lock`,
yield `fl.lock`, and on resumption `del fl`.  The code inside the `with`
block is abstracted by `body`, a function from the yielded value to the
block's outcome (normal completion or a raised error).  Finalization follows
CPython reference counting: whether the generator resumes normally (reaching
the explicit `del fl`) or is torn down by an exception thrown into its
suspended frame, the local `fl` is finalized at scope exit and
`FileLock.__del__` runs. -/
def file_lock (env : Env) (st : FS) (lock_file : String) (verbose : Bool)
    (body : Option LockFile → Except PyErr Unit) : ScopeResult :=
  let a := FileLock.new.acquire_lock env st lock_file verbose
  match a.ret with
  | Except.error e =>
      { yielded := none, ret := Except.error e, st := a.self.del a.st }
  | Except.ok _ =>
      let y := a.self.lock
      { yielded := some y, ret := body y, st := a.self.del a.st }

/-! ## utils.py: loggers and Slack notification -/

/-- The kind of a logging handler, as configured by the repository's code:
a rotating file handler (with its `maxBytes` and `backupCount` arguments), a
plain file handler, or a syslog handler bound to a socket address. -/
inductive HandlerKind where
  | rotatingFile : Int → Nat → HandlerKind
  | plainFile : HandlerKind
  | syslogKind : String → HandlerKind
deriving DecidableEq, Repr

/-- A logging handler: its kind, the level set on it (if any) and the
formatter set on it (format string and date format, if any). -/
structure Handler where
  kind : HandlerKind
  level : Option Nat
  fmt : Option (String × String)
deriving DecidableEq, Repr

/-- A logger object: name, effective level and attached handlers.
Levels use the numeric values of the Python logging module
(DEBUG = 10, INFO = 20, ERROR = 40). -/
structure Logger where
  name : String
  level : Nat
  handlers : List Handler
deriving DecidableEq, Repr

/-- Modelled from the logging library's documented behaviour:
`logger.error(msg)` emits `msg` to the logger's sink when ERROR (40) is at
or above the logger's level. -/
def Logger.emitError (lg : Logger) (msg : String) (sink : List String) : List String :=
  if lg.level ≤ 40 then sink ++ [msg] else sink

/-- The parts of the host the logger setup consults: whether the log file
exists, whether it is writable, and what `platform.system()` reports. -/
structure LogHost where
  pathExists : String → Bool
  writable : String → Bool
  platformSystem : String

/-- Python truthiness of the optional integer `log_rotate_size`:
`None` and `0` are falsy, any other int is truthy. -/
def pyTruthyInt (n : Option Int) : Bool :=
  match n with
  | some v => v ≠ 0
  | none => false

/-- The format arguments `get_logger` passes to `logging.Formatter`. -/
def logFormat : String × String :=
  ("%(asctime)s.%(msecs)03d %(levelname)-6s %(message)s", "%Y-%m-%d %H:%M:%S")

/-- Embedding of `get_logger` (`scripts/utils.py`).  Missing or unwritable
log file: print a message and fall off with `None`.  Otherwise the logger is
created at DEBUG level and the `if log_rotate_size:` branch binds the local
name `log_handler` to a rotating file handler while the `else` branch binds
the distinct local name `file_handler` to a plain file handler; the locals
are modelled as `Option`-valued slots, each `some` exactly on the branch
that assigns it.  Every statement after the conditional reads
`file_handler`, so when it is unbound Python raises `NameError`; when it is
bound, it is levelled, formatted and attached to the returned logger.
The value bound to `log_handler` is never read again. -/
def get_logger (host : LogHost) (name log_file_name : String)
    (log_rotate_size : Option Int) (log_rotate_count : Nat) :
    Except PyErr (Option Logger) × List String :=
  if host.pathExists log_file_name = false then
    (Except.ok none,
     ["Cannot find log file '" ++ log_file_name ++ "'. Check that it exists."])
  else if host.writable log_file_name = false then
    (Except.ok none,
     ["Cannot get WRITE access to log file '" ++ log_file_name ++
        "'. Change file permissions, then try again."])
  else
    let logger : Logger := { name := name, level := 10, handlers := [] }
    let rotate := pyTruthyInt log_rotate_size
    let log_handler : Option Handler :=
      if rotate then
        some { kind := HandlerKind.rotatingFile (log_rotate_size.getD 0) log_rotate_count,
               level := none, fmt := none }
      else none
    let file_handler : Option Handler :=
      if rotate then none
      else some { kind := HandlerKind.plainFile, level := none, fmt := none }
    match file_handler with
    | none => (Except.error (PyErr.nameError "file_handler"), [])
    | some fh =>
        let fh := { fh with level := some 10 }
        let fh := { fh with fmt := some logFormat }
        (Except.ok (some { logger with handlers := logger.handlers ++ [fh] }), [])

/-- Embedding of `get_sys_logger` (`scripts/utils.py`): an INFO-level logger
named after the module file, with a syslog handler whose address depends on
`platform.system()`. -/
def get_sys_logger (host : LogHost) (fileBase : String) : Logger :=
  let log_address := if host.platformSystem = "Darwin" then "/var/run/syslog" else "/dev/log"
  { name := fileBase, level := 20,
    handlers := [{ kind := HandlerKind.syslogKind log_address, level := none, fmt := none }] }

/-- The JSON body the notifier posts: `json.dumps` of a dict with the sender
username and a single-element attachment list carrying the keyword payload
(the payload is kept abstract as one value). -/
structure SlackBody where
  username : String
  attachments : List String
deriving DecidableEq, Repr

/-- Result of `send_slack_notification`: the HTTP POSTs issued
(url and body) and the syslog sink afterwards.  The `Except` layer records
that the embedded function itself raises nothing. -/
structure NotifyResult where
  posts : List (String × SlackBody)
  syslog : List String

/-- Embedding of `send_slack_notification` (`scripts/utils.py`): POST the
JSON body to the webhook url, and when the response status code is not 200,
build the syslog logger and log an error line mentioning the module file;
in either case control falls off the end of the function.  The HTTP
response's status code is an input (the collaborator is a black box), as is
`__file__`. -/
def send_slack_notification (status_code : Nat) (host : LogHost)
    (fileName : String) (webhook_url username payload : String)
    (syslog : List String) : Except PyErr NotifyResult :=
  let response_status := status_code
  let posts := [(webhook_url, { username := username, attachments := [payload] : SlackBody })]
  if response_status ≠ 200 then
    let logger := get_sys_logger host fileName
    Except.ok { posts := posts,
                syslog := logger.emitError (fileName ++ " - Could not send slack notification.") syslog }
  else
    Except.ok { posts := posts, syslog := syslog }

/-! ## Theorems -/

/-- C10: `format_timedelta` returns the decomposition of
`td.days * 86400 + td.seconds` into hours, minutes and seconds — hours
unpadded (days folded into them), minutes and seconds zero-padded to two
digits — and when `with_micro_secs` is true it appends a dot followed by the
microseconds zero-padded to six digits. -/
theorem format_timedelta_decomposition (td : Timedelta) :
    format_timedelta td false =
      toString (Int.fdiv (td.days * 86400 + (td.seconds : Int)) 3600) ++ ":" ++
        pad2 (Int.fmod (Int.fdiv (td.days * 86400 + (td.seconds : Int)) 60) 60) ++ ":" ++
        pad2 (Int.fmod (td.days * 86400 + (td.seconds : Int)) 60) ∧
    format_timedelta td true =
      format_timedelta td false ++ "." ++ pad6 td.microseconds := by
  have hcomm : (td.seconds : Int) + td.days * (60 * 60 * 24) =
      td.days * 86400 + (td.seconds : Int) := by ring
  have e1 : Int.fdiv (Int.fdiv (td.days * 86400 + (td.seconds : Int)) 60) 60 =
      Int.fdiv (td.days * 86400 + (td.seconds : Int)) 3600 := by
    rw [Int.fdiv_eq_ediv _ (by norm_num), Int.fdiv_eq_ediv _ (by norm_num),
      Int.fdiv_eq_ediv _ (by norm_num)]
    omega
  constructor
  · simp only [format_timedelta, pyDivmod, hcomm, Bool.false_eq_true, if_false, e1]
  · simp only [format_timedelta, pyDivmod, if_true, Bool.false_eq_true, if_false]

/-- The `database or ''` rendering of the source agrees with the claim's
rendering (empty string for `None`, the string itself otherwise): Python's
`or` only collapses the empty string to the empty string. -/
theorem pyOrEmpty_eq_dbRender (database : Option String) :
    pyOrEmpty database = dbRender database := by
  cases database with
  | none => rfl
  | some s =>
    by_cases h : s = "" <;> simp [pyOrEmpty, dbRender, h]

/-- C6: `build_connection_string` yields the mysql+pymysql template for
`'mysql'`, the mssql+pymssql template for `'mssql'` (with the database
rendered as the empty string when absent and a `?charset=` suffix appended
exactly for a non-empty charset), and `None` for every other server type. -/
theorem build_connection_string_cases (server_type username password server : String)
    (port : Nat) (database charset : Option String) :
    (server_type = "mysql" →
      build_connection_string server_type username password server port database charset =
        some ("mysql+pymysql://" ++ username ++ ":" ++ password ++ "@" ++ server ++ ":" ++
          toString port ++ "/" ++ dbRender database ++ charsetSuffix charset)) ∧
    (server_type = "mssql" →
      build_connection_string server_type username password server port database charset =
        some ("mssql+pymssql://" ++ username ++ ":" ++ password ++ "@" ++ server ++ ":" ++
          toString port ++ "/" ++ dbRender database ++ charsetSuffix charset)) ∧
    (server_type ≠ "mysql" → server_type ≠ "mssql" →
      build_connection_string server_type username password server port database charset =
        none) := by
  refine ⟨?_, ?_, ?_⟩
  · intro h
    subst h
    cases charset with
    | none =>
        simp [build_connection_string, pyOrEmpty_eq_dbRender, charsetSuffix,
          String.append_assoc]
    | some c =>
        by_cases hc : c = "" <;>
          simp [build_connection_string, pyOrEmpty_eq_dbRender, charsetSuffix, hc,
            String.append_assoc]
  · intro h
    subst h
    cases charset with
    | none =>
        simp [build_connection_string, pyOrEmpty_eq_dbRender, charsetSuffix,
          String.append_assoc]
    | some c =>
        by_cases hc : c = "" <;>
          simp [build_connection_string, pyOrEmpty_eq_dbRender, charsetSuffix, hc,
            String.append_assoc]
  · intro h1 h2
    simp [build_connection_string, h1, h2]

/-- Evaluation of C6 at concrete inputs: a mysql build, an mssql build with a
charset, and an unsupported server type. -/
theorem build_connection_string_cases_witness :
    build_connection_string "mysql" "root" "pw" "10.0.0.1" 3306 (some "appdb") none =
      some ("mysql+pymysql://root:pw@10.0.0.1:3306/appdb") ∧
    build_connection_string "mssql" "sa" "pw" "db.host" 1433 none (some "utf8") =
      some ("mssql+pymssql://sa:pw@db.host:1433/?charset=utf8") ∧
    build_connection_string "sqlite" "u" "p" "h" 1 none none = none := by
  refine ⟨?_, ?_, ?_⟩
  · have h := (build_connection_string_cases "mysql" "root" "pw" "10.0.0.1" 3306
      (some "appdb") none).1 rfl
    rw [h]
    rfl
  · have h := (build_connection_string_cases "mssql" "sa" "pw" "db.host" 1433
      none (some "utf8")).2.1 rfl
    rw [h]
    rfl
  · exact (build_connection_string_cases "sqlite" "u" "p" "h" 1 none none).2.2
      (by decide) (by decide)

/-- A filesystem in which `path` is claimed by a live process that wrote
`content` into it, used to instantiate contention theorems. -/
def FS.heldBy (path content : String) : FS :=
  { content := fun p => if p = path then some content else none,
    locked := fun p => if p = path then true else false }

/-- C4: `release_lock` is idempotent and never fails observably: a second
`release_lock` after a first one changes nothing (same object, same
filesystem), and `release_lock` on a `FileLock` that never acquired is a
no-op; its embedded type has no error channel, so no exception can escape. -/
theorem release_lock_idempotent (self : FileLock) (st : FS) :
    (self.release_lock st).1.release_lock (self.release_lock st).2 =
      self.release_lock st ∧
    FileLock.new.release_lock st = (FileLock.new, st) := by
  constructor
  · cases hsl : self.lock with
    | none => simp [FileLock.release_lock, hsl]
    | some lf =>
      cases hfp : lf.fp with
      | none => simp [FileLock.release_lock, LockFile.close, hsl, hfp]
      | some n => simp [FileLock.release_lock, LockFile.close, hsl, hfp]
  · simp [FileLock.release_lock, FileLock.new]

/-- C2: an acquisition attempt on a path already claimed by a live process
returns `None` from `acquire_lock` (an ordinary return, not an exception),
and inside the scoped wrapper the value yielded to the body is `None`, with
the body's outcome propagated — the contention result is observable, never
swallowed. -/
theorem acquire_contention_observable (self : FileLock) (env : Env) (st : FS)
    (lock_file : String) (verbose : Bool)
    (body : Option LockFile → Except PyErr Unit)
    (hio : env.openFail = none) (hheld : st.locked lock_file = true) :
    (self.acquire_lock env st lock_file verbose).ret = Except.ok none ∧
    (file_lock env st lock_file verbose body).yielded = some none ∧
    (file_lock env st lock_file verbose body).ret = body none := by
  refine ⟨?_, ?_, ?_⟩ <;>
    simp [file_lock, FileLock.acquire_lock, LockFile.init, FileLock.new,
      FileLock.del, hio, hheld]

/-- Evaluation of C2 on a held path with an erroring body. -/
theorem acquire_contention_observable_witness :
    (FileLock.new.acquire_lock ⟨101, "hostB", none⟩
        (FS.heldBy "/tmp/job.lock" "99@hostZ") "/tmp/job.lock" false).ret =
      Except.ok none ∧
    (file_lock ⟨101, "hostB", none⟩ (FS.heldBy "/tmp/job.lock" "99@hostZ")
        "/tmp/job.lock" false (fun _ => Except.error (PyErr.ioError "boom"))).yielded =
      some none ∧
    (file_lock ⟨101, "hostB", none⟩ (FS.heldBy "/tmp/job.lock" "99@hostZ")
        "/tmp/job.lock" false (fun _ => Except.error (PyErr.ioError "boom"))).ret =
      (fun _ => Except.error (PyErr.ioError "boom") : Option LockFile → Except PyErr Unit) none :=
  acquire_contention_observable FileLock.new ⟨101, "hostB", none⟩
    (FS.heldBy "/tmp/job.lock" "99@hostZ") "/tmp/job.lock" false
    (fun _ => Except.error (PyErr.ioError "boom")) rfl (by decide)

/-- C3: an acquisition attempt that fails on contention changes no state:
the `FileLock` keeps `lock = None` (the whole object is unchanged) and the
filesystem — in particular the lock file content written by the holder — is
exactly as before. -/
theorem acquire_contention_no_state_change (self : FileLock) (env : Env) (st : FS)
    (lock_file : String) (verbose : Bool)
    (hio : env.openFail = none) (hheld : st.locked lock_file = true)
    (hun : self.lock = none) :
    (self.acquire_lock env st lock_file verbose).self.lock = none ∧
    (self.acquire_lock env st lock_file verbose).st = st := by
  constructor <;> simp [FileLock.acquire_lock, LockFile.init, hio, hheld, hun]

/-- Evaluation of C3 on a held path: the object and the holder's content are
untouched. -/
theorem acquire_contention_no_state_change_witness :
    (FileLock.new.acquire_lock ⟨101, "hostB", none⟩
        (FS.heldBy "/tmp/job.lock" "99@hostZ") "/tmp/job.lock" false).self.lock = none ∧
    (FileLock.new.acquire_lock ⟨101, "hostB", none⟩
        (FS.heldBy "/tmp/job.lock" "99@hostZ") "/tmp/job.lock" false).st =
      FS.heldBy "/tmp/job.lock" "99@hostZ" :=
  acquire_contention_no_state_change FileLock.new ⟨101, "hostB", none⟩
    (FS.heldBy "/tmp/job.lock" "99@hostZ") "/tmp/job.lock" false rfl (by decide) rfl

/-- C5: on a free path (and no unrelated I/O failure) `acquire_lock`
succeeds: it returns the held handle (also stored in `self.lock`, open, on
that path), the path is claimed, and the lock file content is exactly the
payload substituted from the fixed `"{pid}@{hostname}"` template with the
acquiring process's pid and hostname. -/
theorem acquire_success_payload (self : FileLock) (env : Env) (st : FS)
    (lock_file : String) (verbose : Bool)
    (hio : env.openFail = none) (hfree : st.locked lock_file = false) :
    (∃ lf : LockFile,
      (self.acquire_lock env st lock_file verbose).ret = Except.ok (some lf) ∧
      (self.acquire_lock env st lock_file verbose).self.lock = some lf ∧
      lf.path = lock_file ∧ lf.fp.isSome = true) ∧
    (self.acquire_lock env st lock_file verbose).st.content lock_file =
      some (lockPayload env.pid env.hostname) ∧
    (self.acquire_lock env st lock_file verbose).st.locked lock_file = true := by
  refine ⟨⟨{ path := lock_file, fp := some 0 }, ?_, ?_, rfl, rfl⟩, ?_, ?_⟩ <;>
    simp [FileLock.acquire_lock, LockFile.init, hio, hfree]

/-- Evaluation of C5 from the empty filesystem with pid 4242 on host
`"buildbox"`. -/
theorem acquire_success_payload_witness :
    (∃ lf : LockFile,
      (FileLock.new.acquire_lock ⟨4242, "buildbox", none⟩ FS.empty
          "/tmp/job.lock" false).ret = Except.ok (some lf) ∧
      (FileLock.new.acquire_lock ⟨4242, "buildbox", none⟩ FS.empty
          "/tmp/job.lock" false).self.lock = some lf ∧
      lf.path = "/tmp/job.lock" ∧ lf.fp.isSome = true) ∧
    (FileLock.new.acquire_lock ⟨4242, "buildbox", none⟩ FS.empty
        "/tmp/job.lock" false).st.content "/tmp/job.lock" = some "4242@buildbox" ∧
    (FileLock.new.acquire_lock ⟨4242, "buildbox", none⟩ FS.empty
        "/tmp/job.lock" false).st.locked "/tmp/job.lock" = true := by
  have h := acquire_success_payload FileLock.new ⟨4242, "buildbox", none⟩ FS.empty
    "/tmp/job.lock" false rfl rfl
  have hp : lockPayload 4242 "buildbox" = "4242@buildbox" := by decide
  exact ⟨h.1, by rw [h.2.1, hp], h.2.2⟩

/-- C7: when the underlying filesystem operation fails for a reason other
than contention, `acquire_lock` propagates that failure as an exception of a
kind distinct from the contention signal; it is never turned into the
`None` contention result. -/
theorem acquire_io_failure_propagates (self : FileLock) (env : Env) (st : FS)
    (lock_file : String) (verbose : Bool) (msg : String)
    (hio : env.openFail = some msg) :
    (self.acquire_lock env st lock_file verbose).ret =
      Except.error (PyErr.ioError msg) ∧
    PyErr.ioError msg ≠ PyErr.lockError ∧
    (self.acquire_lock env st lock_file verbose).ret ≠ Except.ok none := by
  refine ⟨?_, by simp, ?_⟩ <;>
    simp [FileLock.acquire_lock, LockFile.init, hio]

/-- Evaluation of C7 with a permission-denied failure. -/
theorem acquire_io_failure_propagates_witness :
    (FileLock.new.acquire_lock ⟨7, "hostA", some "Permission denied"⟩ FS.empty
        "/root/forbidden.lock" false).ret =
      Except.error (PyErr.ioError "Permission denied") ∧
    PyErr.ioError "Permission denied" ≠ PyErr.lockError ∧
    (FileLock.new.acquire_lock ⟨7, "hostA", some "Permission denied"⟩ FS.empty
        "/root/forbidden.lock" false).ret ≠ Except.ok none :=
  acquire_io_failure_propagates FileLock.new ⟨7, "hostA", some "Permission denied"⟩
    FS.empty "/root/forbidden.lock" false "Permission denied" rfl

/-- C1: a `with file_lock(...)` scope that actually acquired the lock leaves
the OS claim on the path released on every exit path: whatever outcome the
body produces — normal completion or a raised error, which the scope
propagates unchanged — the path is unclaimed after the scope. -/
theorem file_lock_releases_on_every_exit (env : Env) (st : FS)
    (lock_file : String) (verbose : Bool)
    (body : Option LockFile → Except PyErr Unit)
    (hio : env.openFail = none) (hfree : st.locked lock_file = false) :
    (file_lock env st lock_file verbose body).st.locked lock_file = false ∧
    (∃ y, (file_lock env st lock_file verbose body).yielded = some y ∧
      (file_lock env st lock_file verbose body).ret = body y) := by
  refine ⟨?_, ⟨some { path := lock_file, fp := some 0 }, ?_, ?_⟩⟩ <;>
    simp [file_lock, FileLock.acquire_lock, LockFile.init, FileLock.new,
      FileLock.del, LockFile.close, hio, hfree]

/-- Evaluation of C1 with a body that raises: the error propagates and the
claim on the path is gone after the scope. -/
theorem file_lock_releases_on_every_exit_witness :
    (file_lock ⟨4242, "buildbox", none⟩ FS.empty "/tmp/job.lock" false
        (fun _ => Except.error (PyErr.ioError "body failed"))).st.locked
      "/tmp/job.lock" = false ∧
    (∃ y, (file_lock ⟨4242, "buildbox", none⟩ FS.empty "/tmp/job.lock" false
        (fun _ => Except.error (PyErr.ioError "body failed"))).yielded = some y ∧
      (file_lock ⟨4242, "buildbox", none⟩ FS.empty "/tmp/job.lock" false
          (fun _ => Except.error (PyErr.ioError "body failed"))).ret =
        (fun _ => Except.error (PyErr.ioError "body failed") :
          Option LockFile → Except PyErr Unit) y) :=
  file_lock_releases_on_every_exit ⟨4242, "buildbox", none⟩ FS.empty "/tmp/job.lock"
    false (fun _ => Except.error (PyErr.ioError "body failed")) rfl rfl

/-- C8: when the HTTP POST comes back with a status code other than 200,
`send_slack_notification` logs an error line to the syslog logger and
returns normally (an `ok` result — no exception escapes). -/
theorem slack_non_200_logged_not_raised (status_code : Nat) (host : LogHost)
    (fileName webhook_url username payload : String) (syslog : List String)
    (h : status_code ≠ 200) :
    ∃ res : NotifyResult,
      send_slack_notification status_code host fileName webhook_url username
        payload syslog = Except.ok res ∧
      res.syslog = syslog ++ [fileName ++ " - Could not send slack notification."] := by
  refine ⟨⟨[(webhook_url, ⟨username, [payload]⟩)],
    syslog ++ [fileName ++ " - Could not send slack notification."]⟩, ?_, rfl⟩
  simp [send_slack_notification, get_sys_logger, Logger.emitError, h]

/-- Evaluation of C8 on a 404 response. -/
theorem slack_non_200_logged_not_raised_witness :
    ∃ res : NotifyResult,
      send_slack_notification 404 ⟨fun _ => true, fun _ => true, "Linux"⟩
        "utils.py" "https://hooks.example/T/B" "alerts" "job failed" [] =
        Except.ok res ∧
      res.syslog = ([] : List String) ++
        ["utils.py" ++ " - Could not send slack notification."] :=
  slack_non_200_logged_not_raised 404 ⟨fun _ => true, fun _ => true, "Linux"⟩
    "utils.py" "https://hooks.example/T/B" "alerts" "job failed" [] (by decide)

/-- C9: with an existing, writable log file and a truthy `log_rotate_size`,
`get_logger` raises `NameError` for the unbound local `file_handler` instead
of returning a logger: the rotating handler was bound to `log_handler`, but
every following statement reads `file_handler`, which that branch never
assigned. -/
theorem get_logger_rotate_name_error (host : LogHost)
    (name log_file_name : String) (log_rotate_size : Option Int)
    (log_rotate_count : Nat)
    (hex : host.pathExists log_file_name = true)
    (hw : host.writable log_file_name = true)
    (htr : pyTruthyInt log_rotate_size = true) :
    (get_logger host name log_file_name log_rotate_size log_rotate_count).1 =
      Except.error (PyErr.nameError "file_handler") := by
  simp [get_logger, hex, hw, htr]

/-- Evaluation of C9 with a 1 MiB rotation size on a present, writable log
file. -/
theorem get_logger_rotate_name_error_witness :
    (get_logger ⟨fun _ => true, fun _ => true, "Linux"⟩ "app" "/var/log/app.log"
        (some 1048576) 10).1 = Except.error (PyErr.nameError "file_handler") :=
  get_logger_rotate_name_error ⟨fun _ => true, fun _ => true, "Linux"⟩ "app"
    "/var/log/app.log" (some 1048576) 10 rfl rfl (by decide)
